import Mathlib

/-!
Shallow embedding of the resolution pipeline of the
`listenbrainz-playlist-uploader` program (Rust sources
`src/audio_data.rs` and `src/main.rs`), together with theorems settling
the specification claims about it.

External collaborators (the HTTP client, the musicbrainz search service,
the tag-reading libraries, the `governor` rate limiter, the `uuid` and
`serde_json` crates) are modelled as oracle parameters or as small Lean
data types faithful to the interfaces the source code consumes.
Panics (`unwrap` / `expect` in the Rust source) are modelled as an
explicit `panic` outcome, distinct from a returned error value.
-/

/-! ## UUID-shaped identifiers

Modelled from the spec: a canonical identifier is a "UUID-shaped
identifier"; `uuidFromStr` embeds the `uuid` crate's `Uuid::from_str`
on the standard hyphenated 8-4-4-4-12 hexadecimal form, the form the
remote services emit. -/

def isHexChar (c : Char) : Bool :=
  (('0' ≤ c && c ≤ '9') || ('a' ≤ c && c ≤ 'f') || ('A' ≤ c && c ≤ 'F'))

structure Uuid where
  val : String
deriving DecidableEq, Repr

/-- Split a character list on a separator character; groups between
separators, in order. -/
def splitOnChar (sep : Char) : List Char → List (List Char)
  | [] => [[]]
  | c :: rest =>
    if c = sep then
      [] :: splitOnChar sep rest
    else
      match splitOnChar sep rest with
      | [] => [[c]]
      | g :: gs => (c :: g) :: gs

/-- Modelled from the spec: parser for a well-formed UUID-shaped
identifier (hyphenated hex groups of sizes 8-4-4-4-12), embedding
`Uuid::from_str`; `none` models a parse error. -/
def uuidFromStr (s : String) : Option Uuid :=
  match splitOnChar '-' s.toList with
  | [a, b, c, d, e] =>
    if a.length = 8 && b.length = 4 && c.length = 4 && d.length = 4 && e.length = 12
        && (a ++ b ++ c ++ d ++ e).all isHexChar
    then some ⟨s⟩ else none
  | _ => none

/-! ## JSON values (`serde_json::Value`) -/

inductive Json where
  | null
  | bool (b : Bool)
  | num (n : Int)
  | str (s : String)
  | arr (xs : List Json)
  | obj (fields : List (String × Json))

/-- `Value::as_object`: `some` exactly on JSON objects. -/
def Json.asObject : Json → Option (List (String × Json))
  | .obj fields => some fields
  | _ => none

/-- `Value::as_str`: `some` exactly on JSON strings. -/
def Json.asStr : Json → Option String
  | .str s => some s
  | _ => none

/-- `Value::get(key)`: field lookup, `none` on non-objects. -/
def Json.getField : Json → String → Option Json
  | .obj fields, key => jsonFieldLookup fields key
  | _, _ => none
where jsonFieldLookup : List (String × Json) → String → Option Json
  | [], _ => none
  | (k, v) :: rest, key => if k = key then some v else jsonFieldLookup rest key

/-- `true` exactly when the value is the empty JSON object `\x7b\x7d`
(`as_object` succeeds and `is_empty` holds on the map). -/
def Json.isEmptyObj : Json → Bool
  | .obj fields => fields.isEmpty
  | _ => false

/-! ## Data model (`src/audio_data.rs` lines 15-32) -/

structure AudioFileData where
  artist : String
  title : String
  album : Option String
deriving DecidableEq, Repr

inductive AudioIDData where
  | Mbid (id : Uuid)
  | AudioFileData (d : AudioFileData)
deriving DecidableEq, Repr

structure ArtistData where
  artist_tag : String
  mbid : Option Uuid
deriving DecidableEq, Repr

/-! ## Outcome types

The Rust functions return `anyhow::Result`; `unwrap`/`expect` panic.
`RunResult` distinguishes a returned value, a returned error, and a
panic (process abort). `ResolveError` gives structure to the `anyhow`
error messages of `get_musicbrainz_id_for_audio_data`, carrying the
same data the formatted messages carry. -/

inductive ResolveError where
  | lookupFailed (e : String)
  | unresolvedTrack (d : AudioFileData)
  | missingRecordingMbid
  | notAString
  | badUuid (s : String)
deriving DecidableEq, Repr

inductive RunResult (α : Type) where
  | ok (a : α)
  | err (e : ResolveError)
  | panic
deriving DecidableEq, Repr

inductive PanicOr (α : Type) where
  | ok (a : α)
  | panic
deriving DecidableEq, Repr

/-! ## Recording Resolver (`get_musicbrainz_id_for_audio_data`,
`src/audio_data.rs` lines 34-67)

`lookup title artist` is the oracle for
`make_listenbrainz_lookup_request` (lines 69-85): its `Except.error`
case collapses the URL-parse / transport / `error_for_status` / JSON
decode failures the source propagates with `?`.
`resolve_artist` is the artist resolution `get_artist_mbid` as seen by
this caller: a total function `String → ArtistData` (the Rust signature;
environments in which it panics are not modelled here, they are covered
by the theorems about `get_artist_mbid` itself).

The returned `Bool` is instrumentation: `true` exactly when a second
(fallback) lookup request was issued. -/

/-- Lines 56-66 of the source: the emptiness re-check and the
extraction of the `recording_mbid` field from the current response. -/
def extract_recording_mbid (result : Json) (d : AudioFileData) : RunResult Uuid :=
  match result.asObject with
  | none => .panic
  | some fields =>
    if fields.isEmpty then
      .err (.unresolvedTrack d)
    else
      match result.getField "recording_mbid" with
      | none => .err .missingRecordingMbid
      | some v =>
        match v.asStr with
        | none => .err .notAString
        | some s =>
          match uuidFromStr s with
          | none => .err (.badUuid s)
          | some u => .ok u

def get_musicbrainz_id_for_audio_data
    (lookup : String → String → Except String Json)
    (resolve_artist : String → ArtistData)
    (d : AudioFileData) : RunResult Uuid × Bool :=
  match lookup d.title d.artist with
  | .error e => (.err (.lookupFailed e), false)
  | .ok first =>
    match first.asObject with
    | none => (.panic, false)
    | some fields =>
      if fields.isEmpty then
        let artist := resolve_artist d.artist
        match lookup d.title artist.artist_tag with
        | .error e => (.err (.lookupFailed e), true)
        | .ok second => (extract_recording_mbid second d, true)
      else
        (extract_recording_mbid first d, false)

/-! ## Artist Resolver (`get_artist_mbid`, `src/audio_data.rs`
lines 87-121)

`search_name` / `search_alias` are oracles for the musicbrainz
entity-search service queried with exact-name and alias match modes;
`Except.error` is a transport/service failure. The source calls
`.expect` on both searches, `.unwrap` on `entities.first()` and
`.expect` on the UUID parse: all four are panics.
The `Nat` in the result is instrumentation: the number of search
requests issued (1 or 2). -/

structure ArtistEntity where
  id : String
  name : String
deriving DecidableEq, Repr

structure ArtistSearchResult where
  count : Int
  entities : List ArtistEntity
deriving DecidableEq, Repr

/-- Lines 115-120 of the source: pick the first returned entity and
parse its id; panics on an empty entity list or a malformed id. -/
def first_entity_artist (r : ArtistSearchResult) : PanicOr ArtistData :=
  match r.entities.head? with
  | none => .panic
  | some artist =>
    match uuidFromStr artist.id with
    | none => .panic
    | some u => .ok { artist_tag := artist.name, mbid := some u }

def get_artist_mbid
    (search_name search_alias : String → Except String ArtistSearchResult)
    (artist_name : String) : PanicOr (ArtistData × Nat) :=
  match search_name artist_name with
  | .error _ => .panic
  | .ok r1 =>
    if r1.count ≤ 0 then
      match search_alias artist_name with
      | .error _ => .panic
      | .ok r2 =>
        if r2.count ≤ 0 then
          .ok ({ artist_tag := artist_name, mbid := none }, 2)
        else
          match first_entity_artist r2 with
          | .panic => .panic
          | .ok a => .ok (a, 2)
    else
      match first_entity_artist r1 with
      | .panic => .panic
      | .ok a => .ok (a, 1)

/-! ## Memoization (`#[cached]` on `get_artist_mbid`)

The `cached` attribute macro wraps the function body in a process-wide
map keyed by the exact input string: a hit returns the stored value
without running the body; a miss runs the body and stores the result.
`search_requests` counts the search-service requests issued so far. -/

def cache_find : List (String × ArtistData) → String → Option ArtistData
  | [], _ => none
  | (k, v) :: rest, key => if k = key then some v else cache_find rest key

structure ArtistCacheState where
  cache : List (String × ArtistData)
  search_requests : Nat
deriving DecidableEq, Repr

def get_artist_mbid_cached
    (search_name search_alias : String → Except String ArtistSearchResult)
    (artist_name : String) (st : ArtistCacheState) :
    PanicOr (ArtistData × ArtistCacheState) :=
  match cache_find st.cache artist_name with
  | some v => .ok (v, st)
  | none =>
    match get_artist_mbid search_name search_alias artist_name with
    | .panic => .panic
    | .ok (v, k) =>
      .ok (v, { cache := (artist_name, v) :: st.cache,
                search_requests := st.search_requests + k })

/-! ## Batch pipeline (`resolve_all_songs_for_mbids`, `src/main.rs`
lines 209-243)

Each track's future awaits the rate limiter, resolves, and yields an
`anyhow::Result`; the collected results are filtered: `Ok` values are
kept, `Err` values are logged and dropped. `resolve` is the per-track
resolution outcome as a function of the track's data. -/

def exceptIsOk {ε α : Type} : Except ε α → Bool
  | .ok _ => true
  | .error _ => false

def resolve_all_songs_for_mbids {E : Type}
    (resolve : AudioFileData → Except E String)
    (song_data : List AudioFileData) : List String :=
  (song_data.map resolve).filterMap fun r =>
    match r with
    | .ok s => some s
    | .error _ => none

/-! ## Identity Extractor (`load_tags_from_file_path` and
`read_mbid_from_metadata`, `src/audio_data.rs` lines 123-167)

An input file is modelled by what the two tag-reading collaborators
return for it: `lofty` is the outcome of `lofty::read_from_path`
(primary tag optional; the `MusicBrainzRecordingId` item optional
within it), `audiotags` the outcome of `Tag::new().read_from_path`
(artist / title / album items each optional; `album` carries the
album's title string). `.parse()` into `String` on the artist and
title strings is the identity and never fails. -/

structure LoftyTag where
  musicBrainzRecordingId : Option String
deriving DecidableEq, Repr

structure LoftyFile where
  primaryTag : Option LoftyTag
deriving DecidableEq, Repr

structure AudiotagsData where
  artist : Option String
  title : Option String
  album : Option String
deriving DecidableEq, Repr

structure AudioFile where
  lofty : Except String LoftyFile
  audiotags : Except String AudiotagsData

inductive ExtractError where
  | loftyReadFailed (e : String)
  | mbidNotInTags
  | badUuidTag (s : String)
  | tagReadFailed (e : String)
  | artistMissing
  | titleMissing
  | albumMissing
deriving DecidableEq, Repr

def read_mbid_from_metadata (f : AudioFile) : Except ExtractError Uuid :=
  match f.lofty with
  | .error e => .error (.loftyReadFailed e)
  | .ok lf =>
    match lf.primaryTag with
    | none => .error .mbidNotInTags
    | some tag =>
      match tag.musicBrainzRecordingId with
      | none => .error .mbidNotInTags
      | some s =>
        match uuidFromStr s with
        | none => .error (.badUuidTag s)
        | some u => .ok u

def load_tags_from_file_path (f : AudioFile) : Except ExtractError AudioIDData :=
  match read_mbid_from_metadata f with
  | .ok mbid => .ok (.Mbid mbid)
  | .error _ =>
    match f.audiotags with
    | .error e => .error (.tagReadFailed e)
    | .ok tags =>
      match tags.artist with
      | none => .error .artistMissing
      | some artist =>
        match tags.title with
        | none => .error .titleMissing
        | some title =>
          match tags.album with
          | none => .error .albumMissing
          | some album =>
            .ok (.AudioFileData
              { artist := artist, title := title,
                album := if album.isEmpty then none else some album })

/-! ## Feedback submission (`give_song_feedback_for_mbid`,
`src/main.rs` lines 268-285)

`send token mbid score` is the oracle for the reqwest POST: it yields
`response status` when any HTTP response is received (the source never
inspects the status — there is no `error_for_status` call) and
`transportError` when the request itself fails. -/

inductive Feedback where
  | LOVE
  | HATE
  | NEUTRAL
deriving DecidableEq, Repr

/-- `feedback as i8` in the source: LOVE = 1, HATE = -1, NEUTRAL = 0. -/
def feedbackScore : Feedback → Int
  | .LOVE => 1
  | .HATE => -1
  | .NEUTRAL => 0

inductive HttpOutcome where
  | response (status : Nat)
  | transportError (e : String)
deriving DecidableEq, Repr

def give_song_feedback_for_mbid
    (send : String → String → Int → HttpOutcome)
    (user_token mbid : String) (feedback : Feedback) : Except String Unit :=
  match send user_token mbid (feedbackScore feedback) with
  | .response _ => Except.ok ()
  | .transportError e => Except.error e

/-! ## Rate-limited batch timing (`src/main.rs` lines 178-197 and
209-229)

Modelled from the spec: both batch functions build one
`RateLimiter::direct(Quota::with_period(Duration::from_secs(5)))`
shared (via `Arc`) by every spawned task, and each task awaits
`until_ready` — one permit per fixed `period`-second interval — before
issuing its request. A run of the batch is therefore a family of
per-task permit-grant times, pairwise at least `period` apart, with
each task finishing no earlier than its grant. Time is in seconds. -/

structure ThrottledBatch (n period : Nat) where
  grantTime : Fin n → Nat
  finishTime : Fin n → Nat
  pairwiseSpaced : ∀ i j : Fin n, i ≠ j →
    grantTime i + period ≤ grantTime j ∨ grantTime j + period ≤ grantTime i
  requestAfterPermit : ∀ i, grantTime i ≤ finishTime i

/-- Total wall-clock time of a batch run: the batch is done when its
last task finishes. -/
def batchWallClock {n period : Nat} (b : ThrottledBatch n period) : Nat :=
  Finset.univ.sup b.finishTime

/-! ## Concrete fixtures used by witnesses and counterexamples -/

/-- Lookup oracle answering every request with the empty JSON object. -/
def lookupEmpty : String → String → Except String Json :=
  fun _ _ => Except.ok (Json.obj [])

/-- Artist resolution returning the input unchanged with no id. -/
def idResolver : String → ArtistData :=
  fun s => { artist_tag := s, mbid := none }

def exampleTrack : AudioFileData :=
  { artist := "Ed Sheeran", title := "Asdjkhfgds", album := none }

/-- A well-formed UUID string used in fixtures. -/
def exampleUuidStr : String := "b84dd2d1-2bf1-4fcc-aadc-6cc39c36ba35"

/-- Lookup oracle answering every request with an object carrying a
well-formed `recording_mbid`. -/
def lookupHit : String → String → Except String Json :=
  fun _ _ => Except.ok (Json.obj [("recording_mbid", Json.str exampleUuidStr)])

/-- Search oracle that always fails at the transport level. -/
def searchTransportFailure : String → Except String ArtistSearchResult :=
  fun _ => Except.error "connection reset"

/-- Search oracle returning one entity with a well-formed id. -/
def searchOneHit : String → Except String ArtistSearchResult :=
  fun _ => Except.ok
    { count := 1,
      entities := [{ id := "b8a7c51f-362c-4dcb-a259-bc6e0095f0a6", name := "Ed Sheeran" }] }

/-- Search oracle returning zero results. -/
def searchZero : String → Except String ArtistSearchResult :=
  fun _ => Except.ok { count := 0, entities := [] }

/-- File with no embedded recording-id tag and descriptive tags whose
artist string is empty (hence also empty after any trimming) and whose
album string is empty. -/
def fileBlankArtist : AudioFile :=
  { lofty := Except.ok { primaryTag := none },
    audiotags := Except.ok
      { artist := some "", title := some "Song", album := some "" } }

/-- Lookup oracle answering with a non-empty object whose
`recording_mbid` field is a number, not a string. -/
def lookupBadField : String → String → Except String Json :=
  fun _ _ => Except.ok (Json.obj [("recording_mbid", Json.num 5)])

/-- Per-track resolution fixture: fails on one specific title. -/
def resolveFixture : AudioFileData → Except String String :=
  fun d => if d.title = "Asdjkhfgds" then Except.error "Could not resolve" else Except.ok d.title

def songListFixture : List AudioFileData :=
  [{ artist := "A", title := "t1", album := none }, exampleTrack,
   { artist := "B", title := "t2", album := none }]

/-- File whose embedded recording-id tag holds a well-formed UUID. -/
def fileWithMbid : AudioFile :=
  { lofty := Except.ok { primaryTag := some { musicBrainzRecordingId := some exampleUuidStr } },
    audiotags := Except.error "unused" }

/-- Send oracle answering every request with an HTTP 503 response. -/
def sendServerError : String → String → Int → HttpOutcome :=
  fun _ _ _ => HttpOutcome.response 503

/-- The artist identity `searchOneHit` resolves to. -/
def edSheeranData : ArtistData :=
  { artist_tag := "Ed Sheeran", mbid := some ⟨"b8a7c51f-362c-4dcb-a259-bc6e0095f0a6"⟩ }

/-- Cache state after one miss resolved through `searchOneHit`. -/
def edCacheState : ArtistCacheState :=
  { cache := [("Ed Sheeran", edSheeranData)], search_requests := 1 }

/-- A permit schedule for 3 tasks at one permit per 5 seconds. -/
def exampleBatch : ThrottledBatch 3 5 :=
  { grantTime := ![0, 5, 10],
    finishTime := ![0, 5, 10],
    pairwiseSpaced := by decide,
    requestAfterPermit := by decide }

/-! ## Theorems -/

/-- Claim C1: for every (title, artist) input to the Recording Resolver,
the artist-name fallback (resolving the artist and re-issuing the lookup
with the resolved display name and the same title) is invoked if and
only if the first lookup's structured response is an empty object; when
the first response is a non-empty object, no second lookup request is
issued. -/
theorem recording_resolver_fallback_iff_empty_object
    (lookup : String → String → Except String Json)
    (resolve_artist : String → ArtistData) (d : AudioFileData) (v : Json)
    (h : lookup d.title d.artist = Except.ok v) :
    (get_musicbrainz_id_for_audio_data lookup resolve_artist d).2 = v.isEmptyObj := by
  unfold get_musicbrainz_id_for_audio_data
  rw [h]
  cases v with
  | obj fields =>
    simp only [Json.asObject, Json.isEmptyObj]
    by_cases hf : fields.isEmpty
    · simp only [hf, if_true]
      cases h2 : lookup d.title (resolve_artist d.artist).artist_tag <;> simp
    · simp [hf]
  | null => simp [Json.asObject, Json.isEmptyObj]
  | bool b => simp [Json.asObject, Json.isEmptyObj]
  | num n => simp [Json.asObject, Json.isEmptyObj]
  | str s => simp [Json.asObject, Json.isEmptyObj]
  | arr xs => simp [Json.asObject, Json.isEmptyObj]

theorem recording_resolver_fallback_iff_empty_object_witness :
    lookupEmpty exampleTrack.title exampleTrack.artist = Except.ok (Json.obj []) ∧
    (get_musicbrainz_id_for_audio_data lookupEmpty idResolver exampleTrack).2
      = (Json.obj []).isEmptyObj :=
  ⟨rfl, recording_resolver_fallback_iff_empty_object lookupEmpty idResolver exampleTrack
    (Json.obj []) rfl⟩

/-- Claim C6: for every (title, artist) input to the Recording Resolver,
if the first lookup response is empty and the fallback lookup response
is also empty, the resolver fails with an unresolved-track error
carrying the artist and title (the whole `AudioFileData` is formatted
into the message), and does not return any identifier. -/
theorem recording_resolver_both_empty_unresolved
    (lookup : String → String → Except String Json)
    (resolve_artist : String → ArtistData) (d : AudioFileData) (v1 v2 : Json)
    (h1 : lookup d.title d.artist = Except.ok v1)
    (he1 : v1.isEmptyObj = true)
    (h2 : lookup d.title (resolve_artist d.artist).artist_tag = Except.ok v2)
    (he2 : v2.isEmptyObj = true) :
    get_musicbrainz_id_for_audio_data lookup resolve_artist d
      = (RunResult.err (ResolveError.unresolvedTrack d), true) := by
  cases v1 with
  | obj fields1 =>
    cases v2 with
    | obj fields2 =>
      simp only [Json.isEmptyObj] at he1 he2
      unfold get_musicbrainz_id_for_audio_data
      rw [h1]
      simp only [Json.asObject, he1, if_true]
      rw [h2]
      unfold extract_recording_mbid
      simp [Json.asObject, he2]
    | null => simp [Json.isEmptyObj] at he2
    | bool b => simp [Json.isEmptyObj] at he2
    | num n => simp [Json.isEmptyObj] at he2
    | str s => simp [Json.isEmptyObj] at he2
    | arr xs => simp [Json.isEmptyObj] at he2
  | null => simp [Json.isEmptyObj] at he1
  | bool b => simp [Json.isEmptyObj] at he1
  | num n => simp [Json.isEmptyObj] at he1
  | str s => simp [Json.isEmptyObj] at he1
  | arr xs => simp [Json.isEmptyObj] at he1

theorem recording_resolver_both_empty_unresolved_witness :
    lookupEmpty exampleTrack.title exampleTrack.artist = Except.ok (Json.obj []) ∧
    (Json.obj []).isEmptyObj = true ∧
    get_musicbrainz_id_for_audio_data lookupEmpty idResolver exampleTrack
      = (RunResult.err (ResolveError.unresolvedTrack exampleTrack), true) :=
  ⟨rfl, rfl, recording_resolver_both_empty_unresolved lookupEmpty idResolver exampleTrack
    (Json.obj []) (Json.obj []) rfl rfl rfl rfl⟩

/-- Claim C7: for every non-empty-object lookup response, the Recording
Resolver extracts the `recording_mbid` field and, if that field is
missing, not a string, or not a well-formed UUID-shaped identifier,
fails with the corresponding malformed-response error — an error value
returned to the caller, with no fallback lookup issued (second
component `false`) and no panic. -/
theorem recording_resolver_malformed_response
    (lookup : String → String → Except String Json)
    (resolve_artist : String → ArtistData) (d : AudioFileData) (v : Json)
    (fields : List (String × Json))
    (h1 : lookup d.title d.artist = Except.ok v)
    (hobj : v.asObject = some fields)
    (hne : fields.isEmpty = false) :
    (get_musicbrainz_id_for_audio_data lookup resolve_artist d).2 = false ∧
    (v.getField "recording_mbid" = none →
      get_musicbrainz_id_for_audio_data lookup resolve_artist d
        = (RunResult.err ResolveError.missingRecordingMbid, false)) ∧
    (∀ w, v.getField "recording_mbid" = some w → w.asStr = none →
      get_musicbrainz_id_for_audio_data lookup resolve_artist d
        = (RunResult.err ResolveError.notAString, false)) ∧
    (∀ w s, v.getField "recording_mbid" = some w → w.asStr = some s →
      uuidFromStr s = none →
      get_musicbrainz_id_for_audio_data lookup resolve_artist d
        = (RunResult.err (ResolveError.badUuid s), false)) := by
  cases v with
  | obj f =>
    simp only [Json.asObject, Option.some.injEq] at hobj
    subst hobj
    unfold get_musicbrainz_id_for_audio_data
    rw [h1]
    simp only [Json.asObject, hne, if_false, Bool.false_eq_true]
    unfold extract_recording_mbid
    simp only [Json.asObject, hne, if_false, Bool.false_eq_true]
    refine ⟨trivial, ?_, ?_, ?_⟩
    · intro hget
      simp [hget]
    · intro w hget hstr
      simp [hget, hstr]
    · intro w s hget hstr huuid
      simp [hget, hstr, huuid]
  | null => simp [Json.asObject] at hobj
  | bool b => simp [Json.asObject] at hobj
  | num n => simp [Json.asObject] at hobj
  | str s => simp [Json.asObject] at hobj
  | arr xs => simp [Json.asObject] at hobj

theorem recording_resolver_malformed_response_witness :
    lookupBadField exampleTrack.title exampleTrack.artist
      = Except.ok (Json.obj [("recording_mbid", Json.num 5)]) ∧
    get_musicbrainz_id_for_audio_data lookupBadField idResolver exampleTrack
      = (RunResult.err ResolveError.notAString, false) :=
  ⟨rfl,
    (recording_resolver_malformed_response lookupBadField idResolver exampleTrack
      (Json.obj [("recording_mbid", Json.num 5)]) [("recording_mbid", Json.num 5)]
      rfl rfl rfl).2.2.1 (Json.num 5) rfl rfl⟩

/-- A successful first-entity selection always carries a canonical id:
`first_entity_artist` either panics or returns `mbid = some u`. -/
theorem first_entity_artist_mbid_ne_none (r : ArtistSearchResult) (w : ArtistData)
    (h : first_entity_artist r = PanicOr.ok w) : w.mbid ≠ none := by
  unfold first_entity_artist at h
  cases hh : r.entities.head? with
  | none => simp only [hh] at h; cases h
  | some artist =>
    simp only [hh] at h
    cases hu : uuidFromStr artist.id with
    | none => simp only [hu] at h; cases h
    | some u =>
      simp only [hu, PanicOr.ok.injEq] at h
      rw [← h]
      simp

/-- Claim C3: for every input artist string, if both the exact-name
search and the alias search return zero results, the Artist Resolver
returns an identity whose display name equals the original input string
and whose canonical id is `none`; and the invariant holds that whenever
the canonical id is absent in a returned identity, the display name
equals the original input. -/
theorem artist_resolver_miss_returns_input :
    (∀ (sn sa : String → Except String ArtistSearchResult) (a : String)
        (r1 r2 : ArtistSearchResult),
        sn a = Except.ok r1 → r1.count ≤ 0 →
        sa a = Except.ok r2 → r2.count ≤ 0 →
        get_artist_mbid sn sa a
          = PanicOr.ok ({ artist_tag := a, mbid := none }, 2)) ∧
    (∀ (sn sa : String → Except String ArtistSearchResult) (a : String)
        (v : ArtistData) (k : Nat),
        get_artist_mbid sn sa a = PanicOr.ok (v, k) →
        v.mbid = none → v.artist_tag = a) := by
  constructor
  · intro sn sa a r1 r2 h1 hc1 h2 hc2
    unfold get_artist_mbid
    simp [h1, h2, hc1, hc2]
  · intro sn sa a v k h hmbid
    unfold get_artist_mbid at h
    cases hsn : sn a with
    | error e => simp only [hsn] at h; cases h
    | ok r1 =>
      simp only [hsn] at h
      by_cases hc1 : r1.count ≤ 0
      · simp only [if_pos hc1] at h
        cases hsa : sa a with
        | error e => simp only [hsa] at h; cases h
        | ok r2 =>
          simp only [hsa] at h
          by_cases hc2 : r2.count ≤ 0
          · simp only [if_pos hc2, PanicOr.ok.injEq, Prod.mk.injEq] at h
            obtain ⟨hv, -⟩ := h
            rw [← hv]
          · simp only [if_neg hc2] at h
            cases hfe : first_entity_artist r2 with
            | panic => simp only [hfe] at h; cases h
            | ok w =>
              simp only [hfe, PanicOr.ok.injEq, Prod.mk.injEq] at h
              obtain ⟨hv, -⟩ := h
              subst hv
              exact absurd hmbid (first_entity_artist_mbid_ne_none r2 w hfe)
      · simp only [if_neg hc1] at h
        cases hfe : first_entity_artist r1 with
        | panic => simp only [hfe] at h; cases h
        | ok w =>
          simp only [hfe, PanicOr.ok.injEq, Prod.mk.injEq] at h
          obtain ⟨hv, -⟩ := h
          subst hv
          exact absurd hmbid (first_entity_artist_mbid_ne_none r1 w hfe)

theorem artist_resolver_miss_returns_input_witness :
    searchZero "Nonexistent Band" = Except.ok { count := 0, entities := [] } ∧
    get_artist_mbid searchZero searchZero "Nonexistent Band"
      = PanicOr.ok ({ artist_tag := "Nonexistent Band", mbid := none }, 2) :=
  ⟨rfl, artist_resolver_miss_returns_input.1 searchZero searchZero "Nonexistent Band"
    { count := 0, entities := [] } { count := 0, entities := [] }
    rfl (by decide) rfl (by decide)⟩

/-- Claim C4 counterexample: a transport-level search failure does not
reach the Artist Resolver's caller as an error value — on a concrete
input with a failing search oracle the resolver's outcome is a panic
(`expect` in the source aborts the process), and `PanicOr` has no error
constructor at all, so no error value is returned. -/
theorem artist_resolver_transport_failure_counterexample :
    get_artist_mbid searchTransportFailure searchTransportFailure "Ed Sheeran"
      = PanicOr.panic := rfl

/-- Claim C4 (amended): when the remote entity-search service fails at
the transport/service level during artist resolution — on either the
exact-name search or the alias search — the failure is not returned to
the caller as an error value: the source unwraps it with `expect`,
panicking and terminating the process, so the failure is fatal beyond
the current track. -/
theorem artist_resolver_transport_failure_panics :
    (∀ (sn sa : String → Except String ArtistSearchResult) (a e : String),
      sn a = Except.error e → get_artist_mbid sn sa a = PanicOr.panic) ∧
    (∀ (sn sa : String → Except String ArtistSearchResult) (a : String)
        (r1 : ArtistSearchResult) (e : String),
      sn a = Except.ok r1 → r1.count ≤ 0 → sa a = Except.error e →
      get_artist_mbid sn sa a = PanicOr.panic) := by
  constructor
  · intro sn sa a e h
    unfold get_artist_mbid
    simp [h]
  · intro sn sa a r1 e h1 hc1 h2
    unfold get_artist_mbid
    simp [h1, hc1, h2]

theorem artist_resolver_transport_failure_panics_witness :
    searchTransportFailure "Akihito Okano" = Except.error "connection reset" ∧
    get_artist_mbid searchTransportFailure searchZero "Akihito Okano"
      = PanicOr.panic :=
  ⟨rfl, artist_resolver_transport_failure_panics.1 searchTransportFailure searchZero
    "Akihito Okano" "connection reset" rfl⟩

/-- Claim C5: the Artist Resolver is idempotent and memoized per exact
input string: after a call for the string `a` returns `(v, st1)`, the
cache of `st1` holds `v` under key `a`, and a second call with the same
string returns the identical value `v` with the state unchanged — in
particular `search_requests` does not grow, i.e. no new network request
is issued; the value is served from the cache. -/
theorem artist_resolver_memoized
    (sn sa : String → Except String ArtistSearchResult) (a : String)
    (st st1 : ArtistCacheState) (v : ArtistData)
    (h : get_artist_mbid_cached sn sa a st = PanicOr.ok (v, st1)) :
    cache_find st1.cache a = some v ∧
    get_artist_mbid_cached sn sa a st1 = PanicOr.ok (v, st1) := by
  unfold get_artist_mbid_cached at h
  cases hc : cache_find st.cache a with
  | some w =>
    rw [hc] at h
    simp only [PanicOr.ok.injEq, Prod.mk.injEq] at h
    obtain ⟨hv, hst⟩ := h
    subst hv
    subst hst
    refine ⟨hc, ?_⟩
    unfold get_artist_mbid_cached
    rw [hc]
  | none =>
    rw [hc] at h
    cases hg : get_artist_mbid sn sa a with
    | panic =>
      rw [hg] at h
      cases h
    | ok p =>
      obtain ⟨w, k⟩ := p
      rw [hg] at h
      simp only [PanicOr.ok.injEq, Prod.mk.injEq] at h
      obtain ⟨hv, hst⟩ := h
      have hfind : cache_find st1.cache a = some v := by
        rw [← hv, ← hst]
        simp [cache_find]
      refine ⟨hfind, ?_⟩
      unfold get_artist_mbid_cached
      rw [hfind]

theorem artist_resolver_memoized_witness :
    get_artist_mbid_cached searchOneHit searchZero "Ed Sheeran" ⟨[], 0⟩
      = PanicOr.ok (edSheeranData, edCacheState) ∧
    cache_find edCacheState.cache "Ed Sheeran" = some edSheeranData ∧
    get_artist_mbid_cached searchOneHit searchZero "Ed Sheeran" edCacheState
      = PanicOr.ok (edSheeranData, edCacheState) :=
  ⟨rfl,
    (artist_resolver_memoized searchOneHit searchZero "Ed Sheeran" ⟨[], 0⟩
      edCacheState edSheeranData rfl).1,
    (artist_resolver_memoized searchOneHit searchZero "Ed Sheeran" ⟨[], 0⟩
      edCacheState edSheeranData rfl).2⟩

/-- One step of the batch output: the head track's identifier is kept
exactly when its resolution succeeded. -/
theorem resolve_all_songs_cons {E : Type} (resolve : AudioFileData → Except E String)
    (d : AudioFileData) (l : List AudioFileData) :
    resolve_all_songs_for_mbids resolve (d :: l)
      = (match resolve d with
         | .ok t => t :: resolve_all_songs_for_mbids resolve l
         | .error _ => resolve_all_songs_for_mbids resolve l) := by
  unfold resolve_all_songs_for_mbids
  cases hr : resolve d <;> simp [hr, List.filterMap_cons, List.map_cons]

/-- Claim C2: batch resolution is fault-isolating: the output's length
is the number of tracks whose per-track resolution succeeded — in
particular with exactly one failing track it is N−1 — and every track
that resolves successfully contributes its identifier to the output
regardless of any sibling's failure; a failure is dropped, never
aborting the batch. -/
theorem resolve_all_songs_fault_isolating {E : Type}
    (resolve : AudioFileData → Except E String) (l : List AudioFileData) :
    (resolve_all_songs_for_mbids resolve l).length
        = l.countP (fun d => exceptIsOk (resolve d)) ∧
    (l.countP (fun d => !exceptIsOk (resolve d)) = 1 →
      (resolve_all_songs_for_mbids resolve l).length = l.length - 1) ∧
    (∀ d s, d ∈ l → resolve d = Except.ok s →
      s ∈ resolve_all_songs_for_mbids resolve l) := by
  have hlen : ∀ m : List AudioFileData,
      (resolve_all_songs_for_mbids resolve m).length
        = m.countP (fun d => exceptIsOk (resolve d)) := by
    intro m
    induction m with
    | nil => rfl
    | cons d rest ih =>
      rw [resolve_all_songs_cons]
      cases hr : resolve d <;>
        simp [hr, List.countP_cons, exceptIsOk, ih]
  have hsum : ∀ m : List AudioFileData,
      m.countP (fun d => exceptIsOk (resolve d))
        + m.countP (fun d => !exceptIsOk (resolve d)) = m.length := by
    intro m
    induction m with
    | nil => rfl
    | cons d rest ih =>
      have hp : exceptIsOk (resolve d) = true ∨ exceptIsOk (resolve d) = false := by
        cases exceptIsOk (resolve d) <;> simp
      rcases hp with hp | hp <;>
        simp [List.countP_cons, List.length_cons, hp] <;> omega
  refine ⟨hlen l, ?_, ?_⟩
  · intro h1
    have h2 := hlen l
    have h3 := hsum l
    omega
  · intro d s
    induction l with
    | nil => intro hd _; cases hd
    | cons d0 rest ih =>
      intro hd hs
      rw [resolve_all_songs_cons]
      rcases List.mem_cons.mp hd with heq | hd'
      · subst heq
        rw [hs]
        exact List.mem_cons_self _ _
      · cases hr : resolve d0
        · exact ih hd' hs
        · exact List.mem_cons_of_mem _ (ih hd' hs)

theorem resolve_all_songs_fault_isolating_witness :
    songListFixture.countP (fun d => !exceptIsOk (resolveFixture d)) = 1 ∧
    songListFixture.length = 3 ∧
    (resolve_all_songs_for_mbids resolveFixture songListFixture).length
      = songListFixture.length - 1 :=
  ⟨by decide, rfl,
    (resolve_all_songs_fault_isolating resolveFixture songListFixture).2.1 (by decide)⟩

/-- Claim C8 counterexample: the Identity Extractor does not require
artist and title to be non-empty — a file whose artist tag is the empty
string (empty after any trimming) is accepted and returned as a
`Descriptive` identity with an empty artist instead of failing. -/
theorem identity_extractor_counterexample :
    load_tags_from_file_path fileBlankArtist
      = Except.ok (AudioIDData.AudioFileData
          { artist := "", title := "Song", album := none }) := rfl

/-- Claim C8 (amended): for every input file, the Identity Extractor
first attempts the embedded canonical-recording-identifier tag and
returns `DirectId` on a well-formed identifier; otherwise it reads the
descriptive tags and requires the artist, title and album tags each to
be present — with no trimming and no non-emptiness check on artist or
title — returning `Descriptive` with the album absent exactly when the
album string is empty; if the tag read fails or any of the three tags
is missing, the track fails with an error. -/
theorem identity_extractor_behavior :
    (∀ f u, read_mbid_from_metadata f = Except.ok u →
      load_tags_from_file_path f = Except.ok (AudioIDData.Mbid u)) ∧
    (∀ f e tags a t al, read_mbid_from_metadata f = Except.error e →
      f.audiotags = Except.ok tags →
      tags.artist = some a → tags.title = some t → tags.album = some al →
      load_tags_from_file_path f
        = Except.ok (AudioIDData.AudioFileData
            { artist := a, title := t,
              album := if al.isEmpty then none else some al })) ∧
    (∀ f e e2, read_mbid_from_metadata f = Except.error e →
      f.audiotags = Except.error e2 →
      load_tags_from_file_path f = Except.error (ExtractError.tagReadFailed e2)) ∧
    (∀ f e tags, read_mbid_from_metadata f = Except.error e →
      f.audiotags = Except.ok tags → tags.artist = none →
      load_tags_from_file_path f = Except.error ExtractError.artistMissing) ∧
    (∀ f e tags a, read_mbid_from_metadata f = Except.error e →
      f.audiotags = Except.ok tags → tags.artist = some a → tags.title = none →
      load_tags_from_file_path f = Except.error ExtractError.titleMissing) ∧
    (∀ f e tags a t, read_mbid_from_metadata f = Except.error e →
      f.audiotags = Except.ok tags → tags.artist = some a → tags.title = some t →
      tags.album = none →
      load_tags_from_file_path f = Except.error ExtractError.albumMissing) := by
  refine ⟨?_, ?_, ?_, ?_, ?_, ?_⟩
  · intro f u hm
    unfold load_tags_from_file_path
    simp [hm]
  · intro f e tags a t al hm ht ha htt hal
    unfold load_tags_from_file_path
    simp [hm, ht, ha, htt, hal]
  · intro f e e2 hm ht
    unfold load_tags_from_file_path
    simp [hm, ht]
  · intro f e tags hm ht ha
    unfold load_tags_from_file_path
    simp [hm, ht, ha]
  · intro f e tags a hm ht ha htt
    unfold load_tags_from_file_path
    simp [hm, ht, ha, htt]
  · intro f e tags a t hm ht ha htt hal
    unfold load_tags_from_file_path
    simp [hm, ht, ha, htt, hal]

theorem identity_extractor_behavior_witness :
    read_mbid_from_metadata fileWithMbid = Except.ok ⟨exampleUuidStr⟩ ∧
    load_tags_from_file_path fileWithMbid
      = Except.ok (AudioIDData.Mbid ⟨exampleUuidStr⟩) :=
  ⟨rfl, identity_extractor_behavior.1 fileWithMbid ⟨exampleUuidStr⟩ rfl⟩

/-- Claim C9: with the shared rate limiter granting one permit per
5-second interval and 3 tracks, each task acquiring its own permit
before its request, the total wall-clock time of the batch is at least
10 seconds. -/
theorem throttled_batch_three_tracks_ten_seconds (b : ThrottledBatch 3 5) :
    10 ≤ batchWallClock b := by
  have h01 := b.pairwiseSpaced 0 1 (by decide)
  have h02 := b.pairwiseSpaced 0 2 (by decide)
  have h12 := b.pairwiseSpaced 1 2 (by decide)
  have key : 10 ≤ b.grantTime 0 ∨ 10 ≤ b.grantTime 1 ∨ 10 ≤ b.grantTime 2 := by
    omega
  have hle : ∀ i : Fin 3, b.finishTime i ≤ batchWallClock b := by
    intro i
    exact Finset.le_sup (Finset.mem_univ i)
  rcases key with h | h | h
  · exact le_trans h (le_trans (b.requestAfterPermit 0) (hle 0))
  · exact le_trans h (le_trans (b.requestAfterPermit 1) (hle 1))
  · exact le_trans h (le_trans (b.requestAfterPermit 2) (hle 2))

theorem throttled_batch_three_tracks_ten_seconds_witness :
    10 ≤ batchWallClock exampleBatch :=
  throttled_batch_three_tracks_ten_seconds exampleBatch

/-- Claim C10: for every token, recording identifier and feedback
value, the per-track feedback submission returns `Ok(())` whenever any
HTTP response is received from the feedback service, regardless of its
status code (including 4xx/5xx), and returns an error exactly when the
request itself fails at the transport level. -/
theorem feedback_ok_on_any_response
    (send : String → String → Int → HttpOutcome)
    (user_token mbid : String) (feedback : Feedback) :
    (∀ status, send user_token mbid (feedbackScore feedback) = HttpOutcome.response status →
      give_song_feedback_for_mbid send user_token mbid feedback = Except.ok ()) ∧
    (∀ e, send user_token mbid (feedbackScore feedback) = HttpOutcome.transportError e →
      give_song_feedback_for_mbid send user_token mbid feedback = Except.error e) := by
  constructor
  · intro status h
    unfold give_song_feedback_for_mbid
    simp [h]
  · intro e h
    unfold give_song_feedback_for_mbid
    simp [h]

theorem feedback_ok_on_any_response_witness :
    sendServerError "token" "mbid" (feedbackScore Feedback.LOVE) = HttpOutcome.response 503 ∧
    give_song_feedback_for_mbid sendServerError "token" "mbid" Feedback.LOVE = Except.ok () :=
  ⟨rfl, (feedback_ok_on_any_response sendServerError "token" "mbid" Feedback.LOVE).1 503 rfl⟩
